import Mathlib

/-!
Verification development for `plugins/inline.py`, the inline-query handler of
the repository. The handler is embedded shallowly: Python strings are Lean
`String`s, the module-level configuration constants from `info.py` become a
`Config` record, the mutable `temp.BANNED_USERS` set becomes a `Temp` record,
and the external collaborators (`get_search_results`, `is_subscribed`,
`get_size`, and the platform send performed by `query.answer`) are parameters
of the embedded handler. Awaited side effects are recorded in an explicit
trace of `Effect`s, and an exception that escapes the handler is reported in
the `raised` field of the result.
-/

/-- ASCII whitespace recognised by Python `str.strip()` with no argument
(space, tab, newline, carriage return, vertical tab, form feed; the rarely
relevant Unicode space characters are not modelled). -/
def pyIsSpace (c : Char) : Bool :=
  c = ' ' || c = '\t' || c = '\n' || c = '\r' || c = Char.ofNat 11 || c = Char.ofNat 12

/-- Python `str.strip()`: drop leading and trailing whitespace. -/
def pyStrip (s : String) : String :=
  String.mk (((s.data.dropWhile pyIsSpace).reverse.dropWhile pyIsSpace).reverse)

/-- Python `str.lower()` (ASCII case mapping; full Unicode case folding is not
modelled, the handler only lowercases a file-type filter). -/
def pyLower (s : String) : String :=
  String.mk (s.data.map Char.toLower)

/-- Value of a nonempty run of ASCII decimal digits, `none` otherwise. -/
def digitsVal (ds : List Char) : Option Nat :=
  if ds ≠ [] && ds.all Char.isDigit then
    some (ds.foldl (fun a c => 10 * a + (c.toNat - 48)) 0)
  else
    none

/-- Python `int(s)` applied to a string: optional surrounding whitespace, an
optional sign, then ASCII decimal digits (underscore digit grouping and
non-ASCII decimal digits are not modelled). `none` models a raised
`ValueError`. -/
def pyInt (s : String) : Option Int :=
  let t := ((s.data.dropWhile pyIsSpace).reverse.dropWhile pyIsSpace).reverse
  match t with
  | '+' :: ds => (digitsVal ds).map (fun n => (n : Int))
  | '-' :: ds => (digitsVal ds).map (fun n => -(n : Int))
  | ds => (digitsVal ds).map (fun n => (n : Int))

/-- Core loop of Python `str.format` restricted to keyword arguments, which is
how `CUSTOM_FILE_CAPTION.format(file_name=..., file_size=..., file_caption=...)`
uses it. The first argument is `none` outside a replacement field and
`some acc` (accumulated field name, reversed) inside one. Doubled braces are
escapes; a replacement field is replaced by `lookup` applied to its full text
(conversion suffixes and format specifications receive no special treatment).
`none` models a raised exception: an unmatched brace (`ValueError`) or a field
text that is not a known keyword (`KeyError`/`IndexError`). -/
def pyFmt (lookup : String → Option String) : Option (List Char) → List Char → Option String
  | none, [] => some ""
  | none, '{' :: '{' :: rest => (pyFmt lookup none rest).map (fun s => "\x7b" ++ s)
  | none, '}' :: '}' :: rest => (pyFmt lookup none rest).map (fun s => "\x7d" ++ s)
  | none, '}' :: _ => none
  | none, '{' :: rest => pyFmt lookup (some []) rest
  | none, c :: rest => (pyFmt lookup none rest).map (fun s => String.mk (c :: s.data))
  | some _, [] => none
  | some acc, '}' :: rest =>
    match lookup (String.mk acc.reverse) with
    | none => none
    | some v => (pyFmt lookup none rest).map (fun s => v ++ s)
  | some acc, c :: rest => pyFmt lookup (some (c :: acc)) rest

/-- Python `tmpl.format(...)` with keyword arguments given by `lookup`. -/
def pyFormat (tmpl : String) (lookup : String → Option String) : Option String :=
  pyFmt lookup none tmpl.data

/-- Rendering of an optional string inside a Python f-string: `None` prints as
the four characters `None`. -/
def pyStrOpt : Option String → String
  | none => "None"
  | some s => s

/-- Configuration constants imported from `info.py`. `AUTH_CHANNEL` is only
ever tested for truthiness, so it is modelled as the Bool of that test. -/
structure Config where
  AUTH_USERS : List Int
  AUTH_CHANNEL : Bool
  CACHE_TIME : Nat
  CUSTOM_FILE_CAPTION : Option String
  FORCE_FRESH_CACHE : Bool

/-- Process-wide mutable state `temp` from `utils`; the handler only reads
`temp.BANNED_USERS`. -/
structure Temp where
  BANNED_USERS : List Int

/-- Inbound inline-query event: the requesting user (absent when Telegram
sends no `from_user`), the raw query text, and the opaque offset token
(`none` models an absent attribute, `some ""` the usual initial value). -/
structure InlineQuery where
  from_user : Option Int
  query : String
  offset : Option String

/-- External `FileRecord` consumed read-only from the search collaborator. -/
structure FileRecord where
  file_id : String
  file_name : Option String
  file_size : Option Nat
  caption : Option String
  file_type : String
deriving DecidableEq

/-- Result triple of `get_search_results`: the page of files, the opaque
next-offset continuation token (already rendered as the string the code
passes to `str`), and the total match count. -/
structure SearchPage where
  files : List FileRecord
  next_offset : String
  total : Nat

/-- One inline keyboard button, restricted to the two kinds the handler
builds: a URL button and a switch-inline-query-current-chat button. -/
inductive InlineKeyboardButton where
  | urlButton (text url : String)
  | switchInlineCurrentChat (text payload : String)
deriving DecidableEq

/-- Pyrogram `InlineKeyboardMarkup`: rows of buttons. -/
structure InlineKeyboardMarkup where
  inline_keyboard : List (List InlineKeyboardButton)
deriving DecidableEq

/-- One `InlineQueryResultCachedDocument` as the handler builds it. -/
structure DisplayResult where
  title : Option String
  document_file_id : String
  caption : String
  description : String
  reply_markup : InlineKeyboardMarkup
deriving DecidableEq

/-- Arguments of one `query.answer(...)` call. `next_offset` is `none` when
the keyword is not passed. -/
structure AnswerCall where
  results : List DisplayResult
  is_personal : Bool
  cache_time : Nat
  switch_pm_text : String
  switch_pm_parameter : String
  next_offset : Option String
deriving DecidableEq

/-- Exceptions the embedding distinguishes: the pyrogram `QueryIdInvalid`
error, the `ValueError` raised by `int`, and any other exception. -/
inductive PyErr where
  | queryIdInvalid
  | valueError (msg : String)
  | other (msg : String)
deriving DecidableEq

/-- Awaited side effects of one handler run, in order. `logErr` is the
`logger.exception` call in the caption loop; `logSendErr` is the
`logging.exception` call in the send handler of the results branch. -/
inductive Effect where
  | accessCheck (admitted : Bool)
  | subCheck (subscribed : Bool)
  | searchCall (term : String) (file_type : Option String) (max_results : Nat) (offset : Int)
  | logErr
  | answerCall (c : AnswerCall)
  | logSendErr
deriving DecidableEq

/-- Outcome of one handler run: the ordered effect trace, and the exception
that escaped the handler, if any. -/
structure HandlerResult where
  trace : List Effect
  raised : Option PyErr
deriving DecidableEq

/-- Module-level `cache_time`: zero as soon as any auth gating is configured,
otherwise the configured `CACHE_TIME`. -/
def cache_time (cfg : Config) : Nat :=
  if cfg.AUTH_USERS ≠ [] ∨ cfg.AUTH_CHANNEL then 0 else cfg.CACHE_TIME

/-- Cache duration actually passed to `query.answer` in both response
branches: `0 if FORCE_FRESH_CACHE else cache_time`. -/
def effCacheTime (cfg : Config) : Nat :=
  if cfg.FORCE_FRESH_CACHE then 0 else cache_time cfg

/-- Truthiness of an optional Python string: `None` and `""` are falsy. -/
def pyTruthyStr : Option String → Bool
  | none => false
  | some s => s ≠ ""

/-- Access gate `inline_users`: with a non-empty `AUTH_USERS` admit exactly
the members that have a `from_user`; otherwise admit exactly the queries with
a `from_user` that is not banned. -/
def inline_users (cfg : Config) (tmp : Temp) (query : InlineQuery) : Bool :=
  if cfg.AUTH_USERS ≠ [] then
    match query.from_user with
    | some uid => decide (uid ∈ cfg.AUTH_USERS)
    | none => false
  else
    match query.from_user with
    | some uid => decide (uid ∉ tmp.BANNED_USERS)
    | none => false

/-- Query parsing inside `answer`: split on the first `|` when present, strip
the term, strip and lowercase the file type; otherwise strip the whole query
and leave the file type `None`. -/
def parse_query (raw : String) : String × Option String :=
  if raw.data.any (fun c => c = '|') then
    let l := raw.data.takeWhile (fun c => c ≠ '|')
    let r := (raw.data.dropWhile (fun c => c ≠ '|')).drop 1
    (pyStrip (String.mk l), some (pyLower (pyStrip (String.mk r))))
  else
    (pyStrip raw, none)

/-- Offset parsing `int(query.offset or 0)`: an absent or empty token is
falsy, so `int` is applied to the number `0`; otherwise `int` parses the
token string and raises `ValueError` on a malformed one. -/
def parse_offset (o : Option String) : Except PyErr Int :=
  match o with
  | none => Except.ok 0
  | some s =>
    if s = "" then Except.ok 0
    else
      match pyInt s with
      | some n => Except.ok n
      | none => Except.error (PyErr.valueError s)

/-- Keyword arguments of the caption `format` call: missing source fields are
replaced by the empty string, any other keyword is undefined. -/
def captionFields (title size cap : Option String) (n : String) : Option String :=
  if n = "file_name" then some (title.getD "")
  else if n = "file_size" then some (size.getD "")
  else if n = "file_caption" then some (cap.getD "")
  else none

/-- Caption computation for one file: template substitution when a caption
template is configured falling back to the original caption on a formatting
exception (second component: whether that exception was logged), then the
file name as the default for a still-absent caption. -/
def build_caption (cfg : Config) (get_size : Option Nat → Option String)
    (file : FileRecord) : String × Bool :=
  let title := file.file_name
  let size := get_size file.file_size
  let f_caption := file.caption
  let formatted :=
    if pyTruthyStr cfg.CUSTOM_FILE_CAPTION then
      match pyFormat (cfg.CUSTOM_FILE_CAPTION.getD "") (captionFields title size f_caption) with
      | some s => (some s, false)
      | none => (f_caption, true)
    else (f_caption, false)
  (match formatted.1 with
   | none => pyStrOpt title
   | some c => c,
   formatted.2)

/-- Description f-string `Size: ...\nType: ...` of one result. -/
def build_description (get_size : Option Nat → Option String) (file : FileRecord) : String :=
  "Size: " ++ pyStrOpt (get_size file.file_size) ++ "\nType: " ++ file.file_type

/-- Per-result inline keyboard `get_reply_markup`: a persistent channel URL
button row and a search-again button row carrying the search term. -/
def get_reply_markup (query : String) : InlineKeyboardMarkup :=
  { inline_keyboard :=
      [[InlineKeyboardButton.urlButton "📚 HD MOVIES HUB 📚" "https://t.me/+KJHSwIdswKUwZjU1"],
       [InlineKeyboardButton.switchInlineCurrentChat "Search again" query]] }

/-- One loop iteration of `answer`: build the `InlineQueryResultCachedDocument`
for a file, together with the caption-error log effect when formatting the
caption template raised. -/
def process_file (cfg : Config) (get_size : Option Nat → Option String)
    (reply_markup : InlineKeyboardMarkup) (file : FileRecord) : DisplayResult × List Effect :=
  let c := build_caption cfg get_size file
  ({ title := file.file_name
     document_file_id := file.file_id
     caption := c.1
     description := build_description get_size file
     reply_markup := reply_markup },
   if c.2 then [Effect.logErr] else [])

/-- Denial response of the access gate. -/
def denyAccessCall : AnswerCall :=
  { results := []
    is_personal := false
    cache_time := 0
    switch_pm_text := "okDa"
    switch_pm_parameter := "hehe"
    next_offset := none }

/-- Denial response of the subscription gate. -/
def denySubCall : AnswerCall :=
  { results := []
    is_personal := false
    cache_time := 0
    switch_pm_text := "You have to subscribe my channel to use the bot"
    switch_pm_parameter := "subscribe"
    next_offset := none }

/-- Switch-to-PM prompt of the results branch: the folder emoji, the total
match count, and the term when it is non-empty. -/
def resultsText (string : String) (total : Nat) : String :=
  let t := "📁 Results - " ++ toString total
  if string ≠ "" then t ++ " for " ++ string else t

/-- Switch-to-PM prompt of the no-results branch: the cross-mark emoji and
the quoted term when it is non-empty. -/
def noResultsText (string : String) : String :=
  let t := "❌ No results"
  if string ≠ "" then t ++ " for \"" ++ string ++ "\"" else t

/-- The `query.answer` call of the results branch. -/
def resultsCall (cfg : Config) (string : String) (results : List DisplayResult)
    (page : SearchPage) : AnswerCall :=
  { results := results
    is_personal := true
    cache_time := effCacheTime cfg
    switch_pm_text := resultsText string page.total
    switch_pm_parameter := "start"
    next_offset := some page.next_offset }

/-- The `query.answer` call of the no-results branch. -/
def noResultsCall (cfg : Config) (string : String) : AnswerCall :=
  { results := []
    is_personal := true
    cache_time := effCacheTime cfg
    switch_pm_text := noResultsText string
    switch_pm_parameter := "okay"
    next_offset := none }

/-- A `query.answer` call performed with no surrounding `try`: a send failure
escapes the handler. -/
def sendPlain (send : AnswerCall → Except PyErr Unit) (pre : List Effect)
    (c : AnswerCall) : HandlerResult :=
  { trace := pre ++ [Effect.answerCall c]
    raised :=
      match send c with
      | Except.ok _ => none
      | Except.error e => some e }

/-- The guarded `query.answer` call of the results branch: `QueryIdInvalid`
is swallowed with no log, any other exception is logged; nothing escapes. -/
def sendCaught (send : AnswerCall → Except PyErr Unit) (pre : List Effect)
    (c : AnswerCall) : HandlerResult :=
  match send c with
  | Except.ok _ => { trace := pre ++ [Effect.answerCall c], raised := none }
  | Except.error PyErr.queryIdInvalid =>
    { trace := pre ++ [Effect.answerCall c], raised := none }
  | Except.error _ =>
    { trace := pre ++ [Effect.answerCall c, Effect.logSendErr], raised := none }

/-- Trace of the subscription gate: `is_subscribed` is awaited only when
`AUTH_CHANNEL` is configured. -/
def subGateTrace (cfg : Config) (is_subscribed : InlineQuery → Bool)
    (q : InlineQuery) : List Effect :=
  if cfg.AUTH_CHANNEL then [Effect.subCheck (is_subscribed q)] else []

/-- Condition under which the subscription gate does not deny: the negation
of `AUTH_CHANNEL and not await is_subscribed(bot, query)`. -/
def subGateOk (cfg : Config) (is_subscribed : InlineQuery → Bool)
    (q : InlineQuery) : Bool :=
  !(cfg.AUTH_CHANNEL && !(is_subscribed q))

/-- The inline-query handler `answer`, with every awaited collaborator as a
parameter. The effect trace lists the awaited calls in program order. -/
def answer (cfg : Config) (tmp : Temp) (is_subscribed : InlineQuery → Bool)
    (get_search_results : String → Option String → Nat → Int → SearchPage)
    (get_size : Option Nat → Option String)
    (send : AnswerCall → Except PyErr Unit)
    (query : InlineQuery) : HandlerResult :=
  if inline_users cfg tmp query then
    let tr := Effect.accessCheck true :: subGateTrace cfg is_subscribed query
    if subGateOk cfg is_subscribed query then
      let ps := parse_query query.query
      match parse_offset query.offset with
      | Except.error e => { trace := tr, raised := some e }
      | Except.ok offset =>
        let reply_markup := get_reply_markup ps.1
        let page := get_search_results ps.1 ps.2 10 offset
        let processed := page.files.map (process_file cfg get_size reply_markup)
        let results := processed.map Prod.fst
        let tr2 := tr ++ Effect.searchCall ps.1 ps.2 10 offset :: (processed.map Prod.snd).flatten
        if results.isEmpty then
          sendPlain send tr2 (noResultsCall cfg ps.1)
        else
          sendCaught send tr2 (resultsCall cfg ps.1 results page)
    else
      sendPlain send tr denySubCall
  else
    sendPlain send [Effect.accessCheck false] denyAccessCall

/-- Search page the handler fetches for a query whose offset parsed to `off`. -/
def fetchedPage (gsr : String → Option String → Nat → Int → SearchPage)
    (q : InlineQuery) (off : Int) : SearchPage :=
  gsr (parse_query q.query).1 (parse_query q.query).2 10 off

/-- Display results the handler builds from the fetched page. -/
def builtResults (cfg : Config) (gs : Option Nat → Option String)
    (gsr : String → Option String → Nat → Int → SearchPage)
    (q : InlineQuery) (off : Int) : List DisplayResult :=
  ((fetchedPage gsr q off).files.map
    (process_file cfg gs (get_reply_markup (parse_query q.query).1))).map Prod.fst

/-- The `query.answer` call of the results branch for a given query. -/
def builtResultsCall (cfg : Config) (gs : Option Nat → Option String)
    (gsr : String → Option String → Nat → Int → SearchPage)
    (q : InlineQuery) (off : Int) : AnswerCall :=
  resultsCall cfg (parse_query q.query).1 (builtResults cfg gs gsr q off) (fetchedPage gsr q off)

/-- Caption-log effects the handler emits for the fetched page. -/
def builtLogs (cfg : Config) (gs : Option Nat → Option String)
    (gsr : String → Option String → Nat → Int → SearchPage)
    (q : InlineQuery) (off : Int) : List Effect :=
  (((fetchedPage gsr q off).files.map
    (process_file cfg gs (get_reply_markup (parse_query q.query).1))).map Prod.snd).flatten

theorem answer_eq_of_denied (cfg : Config) (tmp : Temp)
    (sub : InlineQuery → Bool) (gsr : String → Option String → Nat → Int → SearchPage)
    (gs : Option Nat → Option String) (send : AnswerCall → Except PyErr Unit)
    (q : InlineQuery) (h : inline_users cfg tmp q = false) :
    answer cfg tmp sub gsr gs send q =
      sendPlain send [Effect.accessCheck false] denyAccessCall := by
  unfold answer
  simp [h]

theorem answer_eq_of_unsubscribed (cfg : Config) (tmp : Temp)
    (sub : InlineQuery → Bool) (gsr : String → Option String → Nat → Int → SearchPage)
    (gs : Option Nat → Option String) (send : AnswerCall → Except PyErr Unit)
    (q : InlineQuery) (h1 : inline_users cfg tmp q = true)
    (h2 : subGateOk cfg sub q = false) :
    answer cfg tmp sub gsr gs send q =
      sendPlain send (Effect.accessCheck true :: subGateTrace cfg sub q) denySubCall := by
  unfold answer
  simp [h1, h2]

theorem answer_eq_of_offset_error (cfg : Config) (tmp : Temp)
    (sub : InlineQuery → Bool) (gsr : String → Option String → Nat → Int → SearchPage)
    (gs : Option Nat → Option String) (send : AnswerCall → Except PyErr Unit)
    (q : InlineQuery) (e : PyErr) (h1 : inline_users cfg tmp q = true)
    (h2 : subGateOk cfg sub q = true)
    (h3 : parse_offset q.offset = Except.error e) :
    answer cfg tmp sub gsr gs send q =
      { trace := Effect.accessCheck true :: subGateTrace cfg sub q, raised := some e } := by
  unfold answer
  simp [h1, h2, h3]

theorem answer_eq_of_offset_ok (cfg : Config) (tmp : Temp)
    (sub : InlineQuery → Bool) (gsr : String → Option String → Nat → Int → SearchPage)
    (gs : Option Nat → Option String) (send : AnswerCall → Except PyErr Unit)
    (q : InlineQuery) (off : Int) (h1 : inline_users cfg tmp q = true)
    (h2 : subGateOk cfg sub q = true)
    (h3 : parse_offset q.offset = Except.ok off) :
    answer cfg tmp sub gsr gs send q =
      (if (builtResults cfg gs gsr q off).isEmpty then
        sendPlain send
          ((Effect.accessCheck true :: subGateTrace cfg sub q) ++
            Effect.searchCall (parse_query q.query).1 (parse_query q.query).2 10 off ::
              builtLogs cfg gs gsr q off)
          (noResultsCall cfg (parse_query q.query).1)
      else
        sendCaught send
          ((Effect.accessCheck true :: subGateTrace cfg sub q) ++
            Effect.searchCall (parse_query q.query).1 (parse_query q.query).2 10 off ::
              builtLogs cfg gs gsr q off)
          (builtResultsCall cfg gs gsr q off)) := by
  unfold answer
  simp [h1, h2, h3, builtResults, builtResultsCall, builtLogs, fetchedPage]

/-- Configuration with no gating, used in concrete scenarios. -/
def cfgOpen : Config :=
  { AUTH_USERS := [], AUTH_CHANNEL := false, CACHE_TIME := 300,
    CUSTOM_FILE_CAPTION := none, FORCE_FRESH_CACHE := true }

/-- Empty banned-users set. -/
def tmpNone : Temp := { BANNED_USERS := [] }

/-- Subscription collaborator that always reports subscribed. -/
def subYes : InlineQuery → Bool := fun _ => true

/-- Search collaborator that always returns an empty page. -/
def gsrEmpty : String → Option String → Nat → Int → SearchPage :=
  fun _ _ _ _ => { files := [], next_offset := "", total := 0 }

/-- Size collaborator returning a fixed rendering. -/
def sizeMB : Option Nat → Option String := fun _ => some "10 MB"

/-- Platform send that always succeeds. -/
def sendOk : AnswerCall → Except PyErr Unit := fun _ => Except.ok ()

/-- C1: for a query with a present user, a non-empty `AUTH_USERS` allow-list
admits exactly its members, and an empty allow-list admits exactly the users
outside the process-wide banned set. -/
theorem claim1_access_gate (cfg : Config) (tmp : Temp) (q : InlineQuery) (uid : Int)
    (h : q.from_user = some uid) :
    (cfg.AUTH_USERS ≠ [] →
      (inline_users cfg tmp q = true ↔ uid ∈ cfg.AUTH_USERS)) ∧
    (cfg.AUTH_USERS = [] →
      (inline_users cfg tmp q = true ↔ uid ∉ tmp.BANNED_USERS)) := by
  constructor
  · intro hne
    unfold inline_users
    rw [h]
    simp [hne]
  · intro he
    unfold inline_users
    rw [h]
    simp [he]

/-- Witness for C1 at user 5, allow-list `[7, 5]`, and at user 9 with an
empty allow-list and banned set `[4]`. -/
theorem claim1_access_gate_witness :
    (inline_users
        { AUTH_USERS := [7, 5], AUTH_CHANNEL := false, CACHE_TIME := 300,
          CUSTOM_FILE_CAPTION := none, FORCE_FRESH_CACHE := true }
        tmpNone { from_user := some 5, query := "", offset := none } = true ↔
      (5 : Int) ∈ [7, 5]) ∧
    (inline_users cfgOpen { BANNED_USERS := [4] }
        { from_user := some 9, query := "", offset := none } = true ↔
      (9 : Int) ∉ [4]) :=
  ⟨(claim1_access_gate _ tmpNone _ 5 rfl).1 (by decide),
   (claim1_access_gate cfgOpen _ _ 9 rfl).2 rfl⟩

/-- C2 counterexample: the claim says a malformed (non-numeric) offset token
is recovered locally to `0`, but `int("abc")` raises a `ValueError` that
escapes the handler: at offset token `"abc"` the parse is an error, not
`Except.ok 0`, and the handler run terminates with the raised error. -/
theorem claim2_counterexample :
    parse_offset (some "abc") = Except.error (PyErr.valueError "abc") ∧
    (answer cfgOpen tmpNone subYes gsrEmpty sizeMB sendOk
        { from_user := some 1, query := "batman", offset := some "abc" }).raised =
      some (PyErr.valueError "abc") :=
  ⟨rfl, rfl⟩

/-- C2 amended: an absent or empty offset token yields offset `0`, a numeric
token parses to its value, and a malformed (non-numeric) token raises a
`ValueError` that is not recovered to `0` but escapes the handler. -/
theorem claim2_offset_parsing :
    parse_offset none = Except.ok 0 ∧
    parse_offset (some "") = Except.ok 0 ∧
    (∀ s : String, ∀ n : Int, pyInt s = some n → parse_offset (some s) = Except.ok n) ∧
    (∀ s : String, s ≠ "" → pyInt s = none →
        parse_offset (some s) = Except.error (PyErr.valueError s)) := by
  refine ⟨rfl, rfl, ?_, ?_⟩
  · intro s n hn
    have hs : s ≠ "" := by
      intro he
      rw [he] at hn
      simp [pyInt, digitsVal] at hn
    simp [parse_offset, hs, hn]
  · intro s hs hn
    simp [parse_offset, hs, hn]

/-- Witness for C2 amended at the numeric token `"12"` and the malformed
token `"abc"`. -/
theorem claim2_offset_parsing_witness :
    parse_offset (some "12") = Except.ok 12 ∧
    parse_offset (some "abc") = Except.error (PyErr.valueError "abc") :=
  ⟨claim2_offset_parsing.2.2.1 "12" 12 rfl,
   claim2_offset_parsing.2.2.2 "abc" (by decide) rfl⟩

/-- C4: whenever the access gate denies, the handler answers with an empty
result list, cache time `0` whatever `CACHE_TIME` is configured, and the
switch-to-PM prompt `okDa`/`hehe`. -/
theorem claim4_denial_response (cfg : Config) (tmp : Temp)
    (sub : InlineQuery → Bool) (gsr : String → Option String → Nat → Int → SearchPage)
    (gs : Option Nat → Option String) (send : AnswerCall → Except PyErr Unit)
    (q : InlineQuery) (h : inline_users cfg tmp q = false) :
    (answer cfg tmp sub gsr gs send q).trace =
      [Effect.accessCheck false, Effect.answerCall denyAccessCall] ∧
    denyAccessCall.results = [] ∧
    denyAccessCall.cache_time = 0 ∧
    denyAccessCall.switch_pm_text = "okDa" ∧
    denyAccessCall.switch_pm_parameter = "hehe" := by
  rw [answer_eq_of_denied cfg tmp sub gsr gs send q h]
  exact ⟨rfl, rfl, rfl, rfl, rfl⟩

/-- Witness for C4: a banned user with an empty allow-list is denied and gets
the fixed empty response. -/
theorem claim4_denial_response_witness :
    (answer cfgOpen { BANNED_USERS := [3] } subYes gsrEmpty sizeMB sendOk
        { from_user := some 3, query := "q", offset := none }).trace =
      [Effect.accessCheck false, Effect.answerCall denyAccessCall] ∧
    denyAccessCall.results = [] ∧
    denyAccessCall.cache_time = 0 ∧
    denyAccessCall.switch_pm_text = "okDa" ∧
    denyAccessCall.switch_pm_parameter = "hehe" :=
  claim4_denial_response cfgOpen { BANNED_USERS := [3] } subYes gsrEmpty sizeMB sendOk
    { from_user := some 3, query := "q", offset := none } rfl

/-- C10: an inline query with no `from_user` is denied in both gating modes,
receives the empty denial response, and never reaches the search call. -/
theorem claim10_missing_user (cfg : Config) (tmp : Temp)
    (sub : InlineQuery → Bool) (gsr : String → Option String → Nat → Int → SearchPage)
    (gs : Option Nat → Option String) (send : AnswerCall → Except PyErr Unit)
    (q : InlineQuery) (h : q.from_user = none) :
    inline_users cfg tmp q = false ∧
    (answer cfg tmp sub gsr gs send q).trace =
      [Effect.accessCheck false, Effect.answerCall denyAccessCall] ∧
    denyAccessCall.results = [] ∧
    (∀ t : String, ∀ ft : Option String, ∀ m : Nat, ∀ o : Int,
        Effect.searchCall t ft m o ∉ (answer cfg tmp sub gsr gs send q).trace) := by
  have hden : inline_users cfg tmp q = false := by
    unfold inline_users
    rw [h]
    split <;> rfl
  refine ⟨hden, ?_, rfl, ?_⟩
  · rw [answer_eq_of_denied cfg tmp sub gsr gs send q hden]
    rfl
  · intro t ft m o
    rw [answer_eq_of_denied cfg tmp sub gsr gs send q hden]
    simp [sendPlain]

/-- Witness for C10 at a concrete user-less query with a non-empty allow-list
(the same statement holds with the empty allow-list by the theorem). -/
theorem claim10_missing_user_witness :
    inline_users
        { AUTH_USERS := [7], AUTH_CHANNEL := false, CACHE_TIME := 300,
          CUSTOM_FILE_CAPTION := none, FORCE_FRESH_CACHE := true }
        tmpNone { from_user := none, query := "q", offset := none } = false ∧
    (answer
        { AUTH_USERS := [7], AUTH_CHANNEL := false, CACHE_TIME := 300,
          CUSTOM_FILE_CAPTION := none, FORCE_FRESH_CACHE := true }
        tmpNone subYes gsrEmpty sizeMB sendOk
        { from_user := none, query := "q", offset := none }).trace =
      [Effect.accessCheck false, Effect.answerCall denyAccessCall] ∧
    denyAccessCall.results = [] ∧
    (∀ t : String, ∀ ft : Option String, ∀ m : Nat, ∀ o : Int,
        Effect.searchCall t ft m o ∉
          (answer
            { AUTH_USERS := [7], AUTH_CHANNEL := false, CACHE_TIME := 300,
              CUSTOM_FILE_CAPTION := none, FORCE_FRESH_CACHE := true }
            tmpNone subYes gsrEmpty sizeMB sendOk
            { from_user := none, query := "q", offset := none }).trace) :=
  claim10_missing_user _ tmpNone subYes gsrEmpty sizeMB sendOk
    { from_user := none, query := "q", offset := none } rfl

theorem takeWhile_append_delim (l r : List Char) (h : '|' ∉ l) :
    (l ++ '|' :: r).takeWhile (fun c => c ≠ '|') = l := by
  induction l with
  | nil => simp
  | cons a as ih =>
    have ha : a ≠ '|' := fun he => h (he ▸ List.mem_cons_self a as)
    have has : '|' ∉ as := fun hm => h (List.mem_cons_of_mem _ hm)
    have ih2 := ih has
    simp only [List.cons_append, List.takeWhile_cons]
    simp [ha] at ih2 ⊢
    exact ih2

theorem dropWhile_append_delim (l r : List Char) (h : '|' ∉ l) :
    (l ++ '|' :: r).dropWhile (fun c => c ≠ '|') = '|' :: r := by
  induction l with
  | nil => simp
  | cons a as ih =>
    have ha : a ≠ '|' := fun he => h (he ▸ List.mem_cons_self a as)
    have has : '|' ∉ as := fun hm => h (List.mem_cons_of_mem _ hm)
    have ih2 := ih has
    simp only [List.cons_append, List.dropWhile_cons]
    simp [ha] at ih2 ⊢
    exact ih2

/-- C3: a raw query containing the delimiter is split on the first `|` only,
with the term the stripped left part and the file type the stripped and
lowercased right part; a query without the delimiter yields the stripped
input and no file type. -/
theorem claim3_query_parsing :
    (∀ s1 s2 : String, '|' ∉ s1.data →
        parse_query (s1 ++ "|" ++ s2) = (pyStrip s1, some (pyLower (pyStrip s2)))) ∧
    (∀ raw : String, '|' ∉ raw.data → parse_query raw = (pyStrip raw, none)) := by
  constructor
  · intro s1 s2 h
    have hdata : (s1 ++ "|" ++ s2).data = s1.data ++ '|' :: s2.data := by
      simp [String.data_append]
    unfold parse_query
    rw [hdata]
    have hany : (s1.data ++ '|' :: s2.data).any (fun c => c = '|') = true := by
      simp
    rw [hany]
    simp only [if_true]
    rw [takeWhile_append_delim s1.data s2.data h, dropWhile_append_delim s1.data s2.data h]
    simp
  · intro raw h
    have hany : raw.data.any (fun c => c = '|') = false := by
      simp only [List.any_eq_false, decide_eq_true_eq]
      intro c hc he
      exact h (he ▸ hc)
    unfold parse_query
    rw [hany]
    simp

/-- Witness for C3 on `"batman | MKV"` and on a delimiter-free query. -/
theorem claim3_query_parsing_witness :
    parse_query ("batman " ++ "|" ++ " MKV") =
      (pyStrip "batman ", some (pyLower (pyStrip " MKV"))) ∧
    parse_query " hello " = (pyStrip " hello ", none) ∧
    parse_query "batman | MKV" = ("batman", some "mkv") :=
  ⟨claim3_query_parsing.1 "batman " " MKV" (by decide),
   claim3_query_parsing.2 " hello " (by decide),
   rfl⟩

/-- C5: the subscription check appears in a handler trace only when the
access gate admitted the query, and no search call appears when the access
gate denies or when the subscription gate denies. -/
theorem claim5_gate_ordering (cfg : Config) (tmp : Temp)
    (sub : InlineQuery → Bool) (gsr : String → Option String → Nat → Int → SearchPage)
    (gs : Option Nat → Option String) (send : AnswerCall → Except PyErr Unit)
    (q : InlineQuery) :
    (∀ b : Bool, Effect.subCheck b ∈ (answer cfg tmp sub gsr gs send q).trace →
        inline_users cfg tmp q = true) ∧
    (inline_users cfg tmp q = false →
        ∀ t : String, ∀ ft : Option String, ∀ m : Nat, ∀ o : Int,
          Effect.searchCall t ft m o ∉ (answer cfg tmp sub gsr gs send q).trace) ∧
    (cfg.AUTH_CHANNEL = true → sub q = false →
        ∀ t : String, ∀ ft : Option String, ∀ m : Nat, ∀ o : Int,
          Effect.searchCall t ft m o ∉ (answer cfg tmp sub gsr gs send q).trace) := by
  by_cases h1 : inline_users cfg tmp q = true
  · refine ⟨fun b _ => h1, fun hf => absurd h1 (by simp [hf]), ?_⟩
    intro hch hsub t ft m o
    have h2 : subGateOk cfg sub q = false := by
      simp [subGateOk, hch, hsub]
    rw [answer_eq_of_unsubscribed cfg tmp sub gsr gs send q h1 h2]
    simp [sendPlain, subGateTrace, hch]
  · have h1f : inline_users cfg tmp q = false := by
      revert h1
      cases inline_users cfg tmp q <;> simp
    rw [answer_eq_of_denied cfg tmp sub gsr gs send q h1f]
    refine ⟨?_, ?_, ?_⟩
    · intro b hb
      simp [sendPlain] at hb
    · intro _ t ft m o
      simp [sendPlain]
    · intro _ _ t ft m o
      simp [sendPlain]

/-- Witness for C5: with a required channel and an unsubscribed user the
concrete trace contains no search call, and the sub-check implication holds
at a trace that does contain a subscription check. -/
theorem claim5_gate_ordering_witness :
    (∀ t : String, ∀ ft : Option String, ∀ m : Nat, ∀ o : Int,
        Effect.searchCall t ft m o ∉
          (answer
            { AUTH_USERS := [], AUTH_CHANNEL := true, CACHE_TIME := 300,
              CUSTOM_FILE_CAPTION := none, FORCE_FRESH_CACHE := true }
            tmpNone (fun _ => false) gsrEmpty sizeMB sendOk
            { from_user := some 1, query := "q", offset := none }).trace) ∧
    inline_users
        { AUTH_USERS := [], AUTH_CHANNEL := true, CACHE_TIME := 300,
          CUSTOM_FILE_CAPTION := none, FORCE_FRESH_CACHE := true }
        tmpNone { from_user := some 1, query := "q", offset := none } = true :=
  ⟨(claim5_gate_ordering _ tmpNone (fun _ => false) gsrEmpty sizeMB sendOk
      { from_user := some 1, query := "q", offset := none }).2.2 rfl rfl,
   (claim5_gate_ordering _ tmpNone (fun _ => false) gsrEmpty sizeMB sendOk
      { from_user := some 1, query := "q", offset := none }).1 false (by decide)⟩

/-- Configuration with the caption template of the specification example. -/
def cfgCap : Config :=
  { AUTH_USERS := [], AUTH_CHANNEL := false, CACHE_TIME := 300,
    CUSTOM_FILE_CAPTION := some "{file_name} - {file_size}", FORCE_FRESH_CACHE := true }

/-- File record of the specification example. -/
def fileA : FileRecord :=
  { file_id := "id1", file_name := some "a.mp4", file_size := some 10485760,
    caption := none, file_type := "video" }

/-- C6: with a configured caption template, a successful named-field
substitution of file name, size string and original caption becomes the
caption; the example template yields `a.mp4 - 10 MB`; a template referencing
an undefined placeholder fails to format whatever the field values are; and
on a formatting failure the original caption is kept unchanged (and the
error is logged). -/
theorem claim6_caption_template :
    (∀ cfg : Config, ∀ gs : Option Nat → Option String, ∀ file : FileRecord,
      ∀ tmpl s : String, cfg.CUSTOM_FILE_CAPTION = some tmpl → tmpl ≠ "" →
        pyFormat tmpl (captionFields file.file_name (gs file.file_size) file.caption) =
          some s →
        (build_caption cfg gs file).1 = s ∧ (build_caption cfg gs file).2 = false) ∧
    (build_caption cfgCap sizeMB fileA).1 = "a.mp4 - 10 MB" ∧
    (∀ t sz c : Option String,
        pyFormat "{file_name} - {oops}" (captionFields t sz c) = none) ∧
    (∀ cfg : Config, ∀ gs : Option Nat → Option String, ∀ file : FileRecord,
      ∀ tmpl c : String, cfg.CUSTOM_FILE_CAPTION = some tmpl → tmpl ≠ "" →
        pyFormat tmpl (captionFields file.file_name (gs file.file_size) file.caption) =
          none →
        file.caption = some c →
        (build_caption cfg gs file).1 = c ∧ (build_caption cfg gs file).2 = true) := by
  refine ⟨?_, rfl, ?_, ?_⟩
  · intro cfg gs file tmpl s h1 h2 h3
    unfold build_caption
    rw [h1]
    simp [pyTruthyStr, h2, h3]
  · intro t sz c
    simp [pyFormat, pyFmt, captionFields]
  · intro cfg gs file tmpl c h1 h2 h3 hc
    rw [hc] at h3
    unfold build_caption
    rw [h1, hc]
    simp [pyTruthyStr, h2, h3, pyStrOpt]

/-- Witness for C6: the example substitution applied through the general
clause, and preservation of the caption `orig` under the template with the
undefined placeholder `oops`. -/
theorem claim6_caption_template_witness :
    ((build_caption cfgCap sizeMB fileA).1 = "a.mp4 - 10 MB" ∧
      (build_caption cfgCap sizeMB fileA).2 = false) ∧
    ((build_caption
        { AUTH_USERS := [], AUTH_CHANNEL := false, CACHE_TIME := 300,
          CUSTOM_FILE_CAPTION := some "{file_name} - {oops}", FORCE_FRESH_CACHE := true }
        sizeMB
        { file_id := "id2", file_name := some "b.mp4", file_size := some 7,
          caption := some "orig", file_type := "video" }).1 = "orig" ∧
      (build_caption
        { AUTH_USERS := [], AUTH_CHANNEL := false, CACHE_TIME := 300,
          CUSTOM_FILE_CAPTION := some "{file_name} - {oops}", FORCE_FRESH_CACHE := true }
        sizeMB
        { file_id := "id2", file_name := some "b.mp4", file_size := some 7,
          caption := some "orig", file_type := "video" }).2 = true) :=
  ⟨claim6_caption_template.1 cfgCap sizeMB fileA "{file_name} - {file_size}"
      "a.mp4 - 10 MB" rfl (by decide) rfl,
   claim6_caption_template.2.2.2
      { AUTH_USERS := [], AUTH_CHANNEL := false, CACHE_TIME := 300,
        CUSTOM_FILE_CAPTION := some "{file_name} - {oops}", FORCE_FRESH_CACHE := true }
      sizeMB
      { file_id := "id2", file_name := some "b.mp4", file_size := some 7,
        caption := some "orig", file_type := "video" }
      "{file_name} - {oops}" "orig" rfl (by decide) rfl rfl⟩

/-- First file of the two-result counterexample page. -/
def fileB1 : FileRecord :=
  { file_id := "f1", file_name := some "x one.mkv", file_size := some 100,
    caption := none, file_type := "video" }

/-- Second file of the two-result counterexample page. -/
def fileB2 : FileRecord :=
  { file_id := "f2", file_name := some "x two.mkv", file_size := some 200,
    caption := none, file_type := "video" }

/-- Search page returning two files while reporting seven total matches. -/
def pageSeven : SearchPage := { files := [fileB1, fileB2], next_offset := "2", total := 7 }

/-- Search collaborator returning `pageSeven` for every request. -/
def gsrSeven : String → Option String → Nat → Int → SearchPage := fun _ _ _ _ => pageSeven

/-- Concrete query with term `x` and the usual empty offset token. -/
def qX : InlineQuery := { from_user := some 1, query := "x", offset := some "" }

/-- The `query.answer` call the handler performs in the `pageSeven` run. -/
def callSeven : AnswerCall :=
  resultsCall cfgOpen "x"
    ((pageSeven.files.map (process_file cfgOpen sizeMB (get_reply_markup "x"))).map Prod.fst)
    pageSeven

/-- C7 counterexample: the claim says the prompt contains the literal count of
returned results, but the handler interpolates the collaborator-reported
total: a run returning 2 results out of 7 total produces the prompt
`📁 Results - 7 for x`, which does not contain the digit `2`. -/
theorem claim7_counterexample :
    (answer cfgOpen tmpNone subYes gsrSeven sizeMB sendOk qX).trace =
      [Effect.accessCheck true, Effect.searchCall "x" none 10 0,
        Effect.answerCall callSeven] ∧
    callSeven.results.length = 2 ∧
    callSeven.switch_pm_text = "📁 Results - 7 for x" ∧
    ¬ ("2".data <:+: callSeven.switch_pm_text.data) :=
  ⟨rfl, rfl, rfl, by decide⟩

/-- C7 amended: the no-results prompt contains `No results` and, for a
non-empty term, the term in quotes; the results prompt contains the decimal
rendering of the total match count reported by the search collaborator (not
necessarily the number of returned results) and, for a non-empty term, the
term unquoted; these are exactly the prompts of the two response calls. -/
theorem claim7_prompt_contents :
    (∀ string : String, ∀ total : Nat,
        (toString total).data <:+: (resultsText string total).data ∧
        (string ≠ "" → string.data <:+: (resultsText string total).data)) ∧
    (∀ string : String,
        "No results".data <:+: (noResultsText string).data ∧
        (string ≠ "" →
          ("\"" ++ string ++ "\"").data <:+: (noResultsText string).data)) ∧
    (∀ cfg : Config, ∀ string : String, ∀ results : List DisplayResult, ∀ page : SearchPage,
        (resultsCall cfg string results page).switch_pm_text = resultsText string page.total) ∧
    (∀ cfg : Config, ∀ string : String,
        (noResultsCall cfg string).switch_pm_text = noResultsText string) := by
  refine ⟨?_, ?_, fun _ _ _ _ => rfl, fun _ _ => rfl⟩
  · intro string total
    by_cases hs : string = ""
    · subst hs
      refine ⟨⟨"📁 Results - ".data, [], ?_⟩, fun h => absurd rfl h⟩
      simp [resultsText, String.data_append]
    · constructor
      · refine ⟨"📁 Results - ".data, (" for " ++ string).data, ?_⟩
        simp [resultsText, hs, String.data_append]
      · intro _
        refine ⟨("📁 Results - " ++ toString total ++ " for ").data, [], ?_⟩
        simp [resultsText, hs, String.data_append]
  · intro string
    have hfx : "❌ No results".data = "❌ ".data ++ "No results".data := by decide
    have hfq : " for \"".data = " for ".data ++ "\"".data := by decide
    by_cases hs : string = ""
    · subst hs
      exact ⟨by decide, fun h => absurd rfl h⟩
    · constructor
      · refine ⟨"❌ ".data, (" for \"" ++ string ++ "\"").data, ?_⟩
        simp [noResultsText, hs, String.data_append, hfx, List.append_assoc]
      · intro _
        refine ⟨"❌ No results".data ++ " for ".data, [], ?_⟩
        simp [noResultsText, hs, String.data_append, hfx, hfq, List.append_assoc]

/-- Witness for C7 amended at term `x` and total `7`: the total is in the
results prompt with the term unquoted, and the quoted term is in the
no-results prompt. -/
theorem claim7_prompt_contents_witness :
    (toString (7 : Nat)).data <:+: (resultsText "x" 7).data ∧
    "x".data <:+: (resultsText "x" 7).data ∧
    "No results".data <:+: (noResultsText "x").data ∧
    ("\"" ++ "x" ++ "\"").data <:+: (noResultsText "x").data :=
  ⟨(claim7_prompt_contents.1 "x" 7).1,
   (claim7_prompt_contents.1 "x" 7).2 (by decide),
   (claim7_prompt_contents.2.1 "x").1,
   (claim7_prompt_contents.2.1 "x").2 (by decide)⟩

/-- Helper: the guarded send of the results branch never lets an exception
escape. -/
theorem sendCaught_raised_none (send : AnswerCall → Except PyErr Unit)
    (pre : List Effect) (c : AnswerCall) :
    (sendCaught send pre c).raised = none := by
  cases hs : send c with
  | ok u => simp [sendCaught, hs]
  | error e => cases e <;> simp [sendCaught, hs]

/-- Helper: the caption loop logs only caption errors, never send errors. -/
theorem logSendErr_not_in_builtLogs (cfg : Config) (gs : Option Nat → Option String)
    (gsr : String → Option String → Nat → Int → SearchPage)
    (q : InlineQuery) (off : Int) :
    Effect.logSendErr ∉ builtLogs cfg gs gsr q off := by
  intro h
  simp only [builtLogs, List.mem_flatten, List.mem_map] at h
  obtain ⟨l, ⟨p, ⟨file, hfile, hp⟩, hl⟩, hmem⟩ := h
  rw [← hl, ← hp] at hmem
  simp only [process_file] at hmem
  split at hmem <;> simp_all

/-- Helper: no send-error log occurs in the trace before the response is
sent. -/
theorem logSendErr_not_in_pre (cfg : Config) (sub : InlineQuery → Bool)
    (gs : Option Nat → Option String)
    (gsr : String → Option String → Nat → Int → SearchPage)
    (q : InlineQuery) (off : Int) :
    Effect.logSendErr ∉ ((Effect.accessCheck true :: subGateTrace cfg sub q) ++
      Effect.searchCall (parse_query q.query).1 (parse_query q.query).2 10 off ::
        builtLogs cfg gs gsr q off) := by
  intro h
  simp only [List.cons_append, List.mem_cons] at h
  rcases h with h | h
  · cases h
  · rcases List.mem_append.mp h with h | h
    · unfold subGateTrace at h
      split at h
      · simp at h
      · simp at h
    · rcases List.mem_cons.mp h with h | h
      · cases h
      · exact logSendErr_not_in_builtLogs cfg gs gsr q off h

/-- C8 amended: past the gates and a parsed offset, in the results-found
branch a `QueryIdInvalid` send failure is swallowed without logging and any
other send failure is logged, the handler completing either way; in the
no-results branch a send failure is not caught and escapes the handler. -/
theorem claim8_send_error_handling (cfg : Config) (tmp : Temp)
    (sub : InlineQuery → Bool) (gsr : String → Option String → Nat → Int → SearchPage)
    (gs : Option Nat → Option String) (send : AnswerCall → Except PyErr Unit)
    (q : InlineQuery) (off : Int)
    (h1 : inline_users cfg tmp q = true)
    (h2 : subGateOk cfg sub q = true)
    (h3 : parse_offset q.offset = Except.ok off) :
    ((fetchedPage gsr q off).files ≠ [] →
        (answer cfg tmp sub gsr gs send q).raised = none) ∧
    ((fetchedPage gsr q off).files ≠ [] →
        send (builtResultsCall cfg gs gsr q off) = Except.error PyErr.queryIdInvalid →
        Effect.logSendErr ∉ (answer cfg tmp sub gsr gs send q).trace) ∧
    (∀ m : String, (fetchedPage gsr q off).files ≠ [] →
        send (builtResultsCall cfg gs gsr q off) = Except.error (PyErr.other m) →
        Effect.logSendErr ∈ (answer cfg tmp sub gsr gs send q).trace) ∧
    ((fetchedPage gsr q off).files = [] →
        ∀ e : PyErr, send (noResultsCall cfg (parse_query q.query).1) = Except.error e →
        (answer cfg tmp sub gsr gs send q).raised = some e) := by
  rw [answer_eq_of_offset_ok cfg tmp sub gsr gs send q off h1 h2 h3]
  refine ⟨?_, ?_, ?_, ?_⟩
  · intro hf
    have hne : (builtResults cfg gs gsr q off).isEmpty = false := by
      rcases hfl : (fetchedPage gsr q off).files with _ | ⟨a, as⟩
      · exact absurd hfl hf
      · simp [builtResults, hfl]
    rw [if_neg (by simp [hne])]
    exact sendCaught_raised_none send _ _
  · intro hf hsend
    have hne : (builtResults cfg gs gsr q off).isEmpty = false := by
      rcases hfl : (fetchedPage gsr q off).files with _ | ⟨a, as⟩
      · exact absurd hfl hf
      · simp [builtResults, hfl]
    rw [if_neg (by simp [hne])]
    have htr : (sendCaught send
        ((Effect.accessCheck true :: subGateTrace cfg sub q) ++
          Effect.searchCall (parse_query q.query).1 (parse_query q.query).2 10 off ::
            builtLogs cfg gs gsr q off)
        (builtResultsCall cfg gs gsr q off)).trace =
        ((Effect.accessCheck true :: subGateTrace cfg sub q) ++
          Effect.searchCall (parse_query q.query).1 (parse_query q.query).2 10 off ::
            builtLogs cfg gs gsr q off) ++
          [Effect.answerCall (builtResultsCall cfg gs gsr q off)] := by
      simp [sendCaught, hsend]
    rw [htr]
    intro hmem
    rcases List.mem_append.mp hmem with h | h
    · exact logSendErr_not_in_pre cfg sub gs gsr q off h
    · simp at h
  · intro m hf hsend
    have hne : (builtResults cfg gs gsr q off).isEmpty = false := by
      rcases hfl : (fetchedPage gsr q off).files with _ | ⟨a, as⟩
      · exact absurd hfl hf
      · simp [builtResults, hfl]
    rw [if_neg (by simp [hne])]
    simp [sendCaught, hsend]
  · intro hf e hsend
    have he : (builtResults cfg gs gsr q off).isEmpty = true := by
      simp [builtResults, hf]
    rw [if_pos (by simp [he])]
    simp [sendPlain, hsend]

/-- C8 counterexample: the claim says a `QueryIdInvalid` send failure is
swallowed in the no-results branch too, but that branch has no exception
handler: with an empty result page and a send that raises `QueryIdInvalid`,
the exception escapes the handler. -/
theorem claim8_counterexample :
    (answer cfgOpen tmpNone subYes gsrEmpty sizeMB
        (fun _ => Except.error PyErr.queryIdInvalid) qX).raised =
      some PyErr.queryIdInvalid := rfl

/-- Witness for C8 amended: with two results and a send raising a generic
error, the handler logs the send error and completes; the hypotheses of the
amended theorem hold at this concrete run. -/
theorem claim8_send_error_handling_witness :
    (answer cfgOpen tmpNone subYes gsrSeven sizeMB
        (fun _ => Except.error (PyErr.other "boom")) qX).raised = none ∧
    Effect.logSendErr ∈
      (answer cfgOpen tmpNone subYes gsrSeven sizeMB
        (fun _ => Except.error (PyErr.other "boom")) qX).trace :=
  ⟨(claim8_send_error_handling cfgOpen tmpNone subYes gsrSeven sizeMB
      (fun _ => Except.error (PyErr.other "boom")) qX 0 rfl rfl rfl).1 (by decide),
   (claim8_send_error_handling cfgOpen tmpNone subYes gsrSeven sizeMB
      (fun _ => Except.error (PyErr.other "boom")) qX 0 rfl rfl rfl).2.2.1 "boom"
      (by decide) rfl⟩

/-- C9: the reply markup is exactly two button rows, the static channel URL
button and a search-again button whose payload is the search term; every
display result built for a query carries that one markup value, built from
the parsed (trimmed) term. -/
theorem claim9_reply_markup :
    (∀ s : String, (get_reply_markup s).inline_keyboard.length = 2) ∧
    (∀ s : String, (get_reply_markup s).inline_keyboard =
        [[InlineKeyboardButton.urlButton "📚 HD MOVIES HUB 📚"
            "https://t.me/+KJHSwIdswKUwZjU1"],
         [InlineKeyboardButton.switchInlineCurrentChat "Search again" s]]) ∧
    (∀ cfg : Config, ∀ gs : Option Nat → Option String, ∀ rm : InlineKeyboardMarkup,
      ∀ files : List FileRecord, ∀ r : DisplayResult,
        r ∈ (files.map (process_file cfg gs rm)).map Prod.fst →
        r.reply_markup = rm) ∧
    (∀ cfg : Config, ∀ gs : Option Nat → Option String,
      ∀ gsr : String → Option String → Nat → Int → SearchPage,
      ∀ q : InlineQuery, ∀ off : Int, ∀ r : DisplayResult,
        r ∈ builtResults cfg gs gsr q off →
        r.reply_markup = get_reply_markup (parse_query q.query).1) := by
  refine ⟨fun s => rfl, fun s => rfl, ?_, ?_⟩
  · intro cfg gs rm files r hr
    simp only [List.mem_map] at hr
    obtain ⟨p, ⟨file, hfile, hp⟩, hr⟩ := hr
    rw [← hr, ← hp]
    rfl
  · intro cfg gs gsr q off r hr
    simp only [builtResults, List.mem_map] at hr
    obtain ⟨p, ⟨file, hfile, hp⟩, hr⟩ := hr
    rw [← hr, ← hp]
    rfl

/-- Witness for C9: the display result built for `fileB1` carries the shared
markup built from the term `x`. -/
theorem claim9_reply_markup_witness :
    (process_file cfgOpen sizeMB (get_reply_markup "x") fileB1).1.reply_markup =
      get_reply_markup "x" :=
  claim9_reply_markup.2.2.1 cfgOpen sizeMB (get_reply_markup "x") [fileB1]
    (process_file cfgOpen sizeMB (get_reply_markup "x") fileB1).1 (by simp)
